import Mathlib

/-!
Verification development for the FTP session layer (src/FTP.py).

The development shallowly embeds the `FTP` class and the `Lock` class.
The external transport (the `ftplib` handle `g_ftp`) is modelled as an
environment: a list of scripted events, one consumed per transport verb
call, each event being either a raised exception or the server's textual
reply (plus, for the change-directory verb, the directory the server
moves to, and for retrieval, the returned bytes).  The process-wide
session state (`g_ftp`, `g_curdirpath`, `g_credentials`, `_lastMessage`)
is threaded explicitly.  Logging calls have no modelled effect.  Python
`assert False` aborts are modelled by the `halted` outcome, uncaught
exceptions by `exn`, and the mutual recursion between the methods is made
total with a fuel parameter (`fuelOut` when it runs out).

String helpers are re-implemented by structural recursion on character
lists so that every definition evaluates inside the kernel; they follow
the semantics of the Python string methods used by the source
(`str.replace`, `str.split`, `str.strip`, `str.startswith`,
`str.endswith`, membership, indexing).
-/

namespace FTPSpec

/-- Check that the first list is a prefix of the second (Boolean). -/
def hasPrefixCh : List Char → List Char → Bool
  | [], _ => true
  | _ :: _, [] => false
  | p :: ps, c :: cs => p = c && hasPrefixCh ps cs

/-- Fueled worker for `pyReplace`: leftmost non-overlapping replacement. -/
def replChF : Nat → List Char → List Char → List Char → List Char
  | 0, s, _, _ => s
  | f + 1, s, pat, rep =>
    match s with
    | [] => []
    | c :: rest =>
      if hasPrefixCh pat s then rep ++ replChF f (s.drop pat.length) pat rep
      else c :: replChF f rest pat rep

/-- Python `s.replace(pat, rep)`: replace every non-overlapping occurrence,
scanning left to right. -/
def pyReplace (s pat rep : String) : String :=
  if pat.data.isEmpty then s
  else String.mk (replChF s.data.length s.data pat.data rep.data)

/-- Fueled worker for `pySplit`. -/
def splitGo : Nat → List Char → List Char → List Char → List (List Char)
  | 0, s, _, cur => [cur.reverse ++ s]
  | f + 1, s, sep, cur =>
    match s with
    | [] => [cur.reverse]
    | c :: rest =>
      if hasPrefixCh sep s then cur.reverse :: splitGo f (s.drop sep.length) sep []
      else splitGo f rest sep (c :: cur)

/-- Python `s.split(sep)` for a non-empty separator. -/
def pySplit (s sep : String) : List String :=
  (splitGo s.data.length s.data sep.data []).map String.mk

/-- Whitespace characters removed by Python `str.strip`. -/
def isSpaceCh (c : Char) : Bool := c = ' ' || c = '\t' || c = '\n' || c = '\r'

/-- Python `s.strip()`. -/
def pyStrip (s : String) : String :=
  String.mk (((s.data.dropWhile isSpaceCh).reverse.dropWhile isSpaceCh).reverse)

/-- Python `s.startswith(p)`. -/
def pyStartsWith (s p : String) : Bool := hasPrefixCh p.data s.data

/-- Python `s.endswith(p)`. -/
def pyEndsWith (s p : String) : Bool := hasPrefixCh p.data.reverse s.data.reverse

/-- Python `c in s` for a single character. -/
def pyContainsCh (s : String) (c : Char) : Bool := s.data.contains c

/-- Python `s[1:]`. -/
def strDrop1 (s : String) : String := String.mk (s.data.drop 1)

/-- Python `s[:-1]`. -/
def strDropLast (s : String) : String := String.mk s.data.dropLast

/-- Python `sep.join(l)`. -/
def joinWith (sep : String) : List String → String
  | [] => ""
  | [x] => x
  | x :: xs => x ++ sep ++ joinWith sep xs

/-- Helper for `posixSplitHead`: strip trailing slashes. -/
def rstripSlashCh (l : List Char) : List Char :=
  (l.reverse.dropWhile (fun c => c = '/')).reverse

/-- Head component of Python `os.path.split(p)`: everything up to the last
slash, with trailing slashes stripped unless the head is all slashes. -/
def posixSplitHead (p : String) : String :=
  match p.data.reverse.findIdx? (fun c => c = '/') with
  | none => ""
  | some j =>
    let head := p.data.take (p.data.length - j)
    if head.all (fun c => c = '/') then String.mk head
    else String.mk (rstripSlashCh head)

/-- Reply test used by `FTP.CWD` and `FTP.Reconnect`
(`msg.startswith("250 OK.")`, lines 81 and 142 of the source). -/
def cwdOkCheck (msg : String) : Bool := pyStartsWith msg "250 OK."

/-- Reply test used by `FTP.MKD` (line 161 of the source):
`msg == newdir or msg.startswith("250 ") or msg.startswith("257 ")`. -/
def mkdCheck (newdir msg : String) : Bool :=
  msg == newdir || pyStartsWith msg "250 " || pyStartsWith msg "257 "

/-- Reply test used by `FTP.DeleteFile`, `FTP.Rename` and `FTP.DeleteDir`
(`msg.startswith("250 ")`). -/
def code250 (msg : String) : Bool := pyStartsWith msg "250 "

/-- Reply test used by `FTP.GetAsString` (line 608 of the source):
`msg.startswith("226")`. -/
def retr226 (msg : String) : Bool := pyStartsWith msg "226"

/-- Success banner list of `FTP.IsSuccess` (lines 466-468 of the source). -/
def successMessages : List String := ["226-File successfully transferred"]

/-- First line of a reply: `ret.split("\n")[0]`. -/
def firstLine (ret : String) : String := (pySplit ret "\n").headD ret

/-- Model of `FTP.IsSuccess` (lines 465-470): exact match of the first
reply line against the banner list. -/
def IsSuccess (ret : String) : Bool :=
  successMessages.any (fun x => x == firstLine ret)

/-- Model of `FTP.ComparePaths` (lines 255-263): collapse double slashes,
append a trailing slash to both sides when missing, compare for equality.
This is the path comparison that ignores a trailing separator. -/
def ComparePaths (p1 p2 : String) : Bool :=
  let q1 := pyReplace p1 "//" "/"
  let q2 := pyReplace p2 "//" "/"
  let r1 := if q1.data.isEmpty || !pyEndsWith q1 "/" then q1 ++ "/" else q1
  let r2 := if q2.data.isEmpty || !pyEndsWith q2 "/" then q2 ++ "/" else q2
  r1 == r2

/-- Model of `FTP.UpdateCurpath` (lines 98-113).  Returns `none` when the
Python code would raise (`newdir[0]` on an empty string after the
double-slash collapse); otherwise the new cached path: an absolute
target replaces the cache, `".."` moves to the parent via
`os.path.split` (no-op at the root), anything else is appended as one
new trailing segment. -/
def UpdateCurpath (cur newdir0 : String) : Option String :=
  let newdir := pyReplace newdir0 "//" "/"
  if newdir.data.isEmpty then none
  else if pyStartsWith newdir "/" then some newdir
  else if newdir == ".." then
    if cur != "/" then some (posixSplitHead cur) else some cur
  else
    if cur == "/" then some (cur ++ newdir) else some (cur ++ "/" ++ newdir)

/-- Component list built by `FTP.SetDirectory` (lines 377-382): a root
marker first when the path is absolute, then the slash-separated pieces,
keeping only those of positive length and stripping each. -/
def pyComponents (newdir : String) : List String :=
  let comps :=
    if pyStartsWith newdir "/" then "/" :: pySplit (strDrop1 newdir) "/"
    else pySplit newdir "/"
  (comps.filter (fun c => 0 < c.data.length)).map pyStrip

/-- Transport events: the environment's scripted answer consumed by one
transport verb call.  `raise` is a raised exception (connection failure);
the other constructors are normal completions carrying the server's
reply.  A `cwdR` event also tells where the server's working directory
ends up (`none` = unchanged). -/
inductive Ev where
  | raise
  | pwdOk
  | connOk
  | cwdR (msg : String) (moved : Option String)
  | msgR (msg : String)
  | listR (names : List String)
  | retrR (msg : String) (data : String)
deriving DecidableEq

/-- Trace actions: one per transport verb call actually attempted. -/
inductive Act where
  | connA
  | pwdA
  | cwdA (d : String)
  | mkdA (d : String)
  | deleteA (f : String)
  | renameA (o n : String)
  | rmdA (d : String)
  | nlstA
  | storA (f : String)
  | appeA (f : String)
  | retrA (f : String)
deriving DecidableEq

/-- Session state: the class-level fields of `FTP` (`g_ftp` presence,
`g_curdirpath`, `g_credentials` presence, `_lastMessage`), the server's
authoritative working directory, the remaining event script and the
trace of verbs attempted so far (newest first). -/
structure St where
  ftpPresent : Bool
  credsPresent : Bool
  curdirpath : String
  serverPath : String
  lastMessage : String
  script : List Ev
  trace : List Act
deriving DecidableEq

/-- Outcome of an operation: normal return, uncaught Python exception,
process abort by `assert False`, or model fuel exhaustion. -/
inductive Out (α : Type) where
  | ok (a : α)
  | exn
  | halted
  | fuelOut
deriving DecidableEq

/-- Set `FTP._lastMessage`. -/
def setLM (m : String) (st : St) : St := { st with lastMessage := m }

/-- Set `FTP.g_curdirpath`. -/
def setCur (c : String) (st : St) : St := { st with curdirpath := c }

/-- Record an attempted transport verb. -/
def pushA (a : Act) (st : St) : St := { st with trace := a :: st.trace }

/-- Consume the script's next event. -/
def popEv (st : St) : St := { st with script := st.script.tail }

/-- Transport primitive `g_ftp.pwd()`: answers the server's current path,
or raises.  An absent handle or an unmatched script also raises. -/
def doPwd (st : St) : Option String × St :=
  if !st.ftpPresent then (none, st)
  else
    match st.script with
    | .pwdOk :: _ => (some st.serverPath, pushA .pwdA (popEv st))
    | .raise :: _ => (none, pushA .pwdA (popEv st))
    | _ => (none, st)

/-- Transport primitive `ftplib.FTP_TLS(...)` + `prot_p()`: on success a
fresh authenticated transport exists and the server session starts at
the root. -/
def doConn (st : St) : Option Unit × St :=
  match st.script with
  | .connOk :: _ =>
    (some (), { pushA .connA (popEv st) with ftpPresent := true, serverPath := "/" })
  | .raise :: _ => (none, pushA .connA (popEv st))
  | _ => (none, st)

/-- Transport primitive `g_ftp.cwd(d)`: returns the reply text; the event
also carries the server's resulting directory. -/
def doCwd (d : String) (st : St) : Option String × St :=
  if !st.ftpPresent then (none, st)
  else
    match st.script with
    | .cwdR m mv :: _ =>
      let st1 := pushA (.cwdA d) (popEv st)
      (some m, { st1 with serverPath := mv.getD st1.serverPath })
    | .raise :: _ => (none, pushA (.cwdA d) (popEv st))
    | _ => (none, st)

/-- Transport primitive for the reply-text verbs `mkd`, `delete`,
`rename`, `rmd`, `storbinary`. -/
def doMsg (a : Act) (st : St) : Option String × St :=
  if !st.ftpPresent then (none, st)
  else
    match st.script with
    | .msgR m :: _ => (some m, pushA a (popEv st))
    | .raise :: _ => (none, pushA a (popEv st))
    | _ => (none, st)

/-- Transport primitive `g_ftp.nlst()`. -/
def doNlst (st : St) : Option (List String) × St :=
  if !st.ftpPresent then (none, st)
  else
    match st.script with
    | .listR names :: _ => (some names, pushA .nlstA (popEv st))
    | .raise :: _ => (none, pushA .nlstA (popEv st))
    | _ => (none, st)

/-- Transport primitive `g_ftp.retrbinary("RETR " + f, write)`: returns
the reply text and the bytes written through the callback. -/
def doRetr (f : String) (st : St) : Option (String × String) × St :=
  if !st.ftpPresent then (none, st)
  else
    match st.script with
    | .retrR m data :: _ => (some (m, data), pushA (.retrA f) (popEv st))
    | .raise :: _ => (none, pushA (.retrA f) (popEv st))
    | _ => (none, st)

/-- Sequencing that propagates exceptions, aborts and fuel exhaustion. -/
def bindB {α β : Type} (r : Out α × St) (k : α → St → Out β × St) : Out β × St :=
  match r with
  | (.ok a, st) => k a st
  | (.exn, st) => (.exn, st)
  | (.halted, st) => (.halted, st)
  | (.fuelOut, st) => (.fuelOut, st)

/-- Consistency check at the end of `FTP.PWD` (lines 279-284): compare the
cached path with the server's answer; a mismatch is `assert False`. -/
def pwdCheck (dir : String) (st : St) : Out String × St :=
  if ComparePaths st.curdirpath dir then (.ok dir, st) else (.halted, st)

/-- Final reply handling of `FTP.GetAsString` (lines 607-617). -/
def gasFin (md : String × String) : Out (Option String) :=
  if retr226 md.1 then .ok (some md.2) else .ok none

/-- Sequencing for the transport primitives: first continuation for a
normal completion, second for a raised call. -/
def bindP {α β : Type} (p : Option α × St) (k1 : α → St → Out β × St)
    (k2 : St → Out β × St) : Out β × St :=
  match p with
  | (some a, st) => k1 a st
  | (none, st) => k2 st

mutual

/-- Model of `FTP.Reconnect` (lines 69-91): fail if no credentials,
open a fresh transport, change to the root (requiring a "250 OK." reply),
then replay the previous cached path through `SetDirectory` (whose
Boolean result is ignored). -/
def Reconnect : Nat → St → Out Bool × St
  | 0, st => (.fuelOut, st)
  | f + 1, st =>
    let st := setLM "" st
    if !st.credsPresent then (.ok false, st)
    else
      bindP (doConn st)
        (fun _ st =>
          bindP (doCwd "/" st)
            (fun msg st =>
              if !cwdOkCheck msg then (.ok false, st)
              else
                let olddir := st.curdirpath
                let st := setCur "/" st
                bindB (SetDirectory f st olddir false) (fun _ st => (.ok true, st)))
            (fun st => (.exn, st)))
        (fun st => (.exn, st))

/-- Model of `FTP.PWD` (lines 268-286): query the server's path (with the
one-shot reconnect on a raised verb; the retried verb is unguarded, and a
failed reconnect returns the empty string), then assert that the cached
path matches the answer under `ComparePaths`. -/
def PWD : Nat → St → Out String × St
  | 0, st => (.fuelOut, st)
  | f + 1, st =>
    bindP (doPwd st) (fun dir st => pwdCheck dir st)
      (fun st =>
        bindB (Reconnect f st) (fun b st =>
          if b then
            bindP (doPwd st) (fun dir st => pwdCheck dir st) (fun st => (.exn, st))
          else (.ok "", st)))

/-- Model of `FTP.CWD` (lines 121-146): collapse double slashes, query the
authoritative path, short-circuit when `wd == newdir or wd + "/" ==
newdir`, otherwise issue the verb under the one-shot retry (both failure
arms return `False`), then finish in `CWDfin`. -/
def CWD : Nat → St → String → Out Bool × St
  | 0, st, _ => (.fuelOut, st)
  | f + 1, st, newdir0 =>
    let newdir := pyReplace newdir0 "//" "/"
    bindB (PWD f st) (fun wd st =>
      if wd == newdir || wd ++ "/" == newdir then (.ok true, st)
      else
        bindP (doCwd newdir st) (fun msg st => CWDfin f st newdir msg)
          (fun st =>
            bindB (Reconnect f st) (fun b st =>
              if b then
                bindP (doCwd newdir st) (fun msg st => CWDfin f st newdir msg)
                  (fun st => (.ok false, st))
              else (.ok false, st))))

/-- Tail of `FTP.CWD` (lines 141-146): on a "250 OK." reply update the
cached path with `UpdateCurpath`, then call `PWD` (whose string result is
discarded but whose consistency assert and exceptions propagate), and
return whether the reply was a success. -/
def CWDfin : Nat → St → String → String → Out Bool × St
  | 0, st, _, _ => (.fuelOut, st)
  | f + 1, st, newdir, msg =>
    if cwdOkCheck msg then
      match UpdateCurpath st.curdirpath newdir with
      | none => (.exn, st)
      | some cur => bindB (PWD f (setCur cur st)) (fun _ st => (.ok true, st))
    else bindB (PWD f st) (fun _ st => (.ok false, st))

/-- Model of `FTP.MKD` (lines 151-161).  Note: no argument validation, and
the post-reconnect retry (line 159) is outside any `try`, so a second
raised verb propagates as an exception. -/
def MKD : Nat → St → String → Out Bool × St
  | 0, st, _ => (.fuelOut, st)
  | f + 1, st, newdir =>
    bindP (doMsg (.mkdA newdir) st)
      (fun msg st => (.ok (mkdCheck newdir msg), st))
      (fun st =>
        bindB (Reconnect f st) (fun b st =>
          if b then
            bindP (doMsg (.mkdA newdir) st)
              (fun msg st => (.ok (mkdCheck newdir msg), st))
              (fun st => (.exn, st))
          else (.ok false, st)))

/-- Model of `FTP.FileExists` (lines 324-357): "/" always exists; an empty
name raises (`filedir[-1]`); otherwise strip one trailing slash, split
off the directory part, verify and enter it, then list the current
directory in `FEnlst`. -/
def FileExists : Nat → St → String → Out Bool × St
  | 0, st, _ => (.fuelOut, st)
  | f + 1, st, filedir0 =>
    let st := setLM "" st
    if filedir0 == "/" then (.ok true, st)
    else if filedir0.data.isEmpty then (.exn, st)
    else
      let filedir1 := if pyEndsWith filedir0 "/" then strDropLast filedir0 else filedir0
      let hasSl := pyContainsCh filedir1 '/'
      let path := if hasSl then joinWith "/" (pySplit filedir1 "/").dropLast else ""
      let filedir := if hasSl then (pySplit filedir1 "/").getLastD "" else filedir1
      if path.data.isEmpty then FEnlst f st filedir
      else
        bindB (PathExists f st path) (fun b st =>
          if b then bindB (CWD f st path) (fun _ st => FEnlst f st filedir)
          else (.ok false, st))

/-- Listing step of `FTP.FileExists` (lines 347-357): membership of the
name in `nlst()`; on a raised listing, reconnect and restart the whole
`FileExists` (an unbounded recursive retry in the source). -/
def FEnlst : Nat → St → String → Out Bool × St
  | 0, st, _ => (.fuelOut, st)
  | f + 1, st, filedir =>
    bindP (doNlst st)
      (fun names st => (.ok (names.contains filedir), st))
      (fun st =>
        bindB (Reconnect f st) (fun b st =>
          if b then FileExists f st filedir
          else (.ok false, st)))

/-- Model of `FTP.PathExists` (lines 291-319): collapse double slashes and
strip; empty means false; an absolute path goes through the root, a
relative one through its directory prefix (the `CWD` result of the
prefix is ignored), ending in a `FileExists` check of the leaf. -/
def PathExists : Nat → St → String → Out Bool × St
  | 0, st, _ => (.fuelOut, st)
  | f + 1, st, dirPath0 =>
    let st := setLM "" st
    let dirPath := pyStrip (pyReplace dirPath0 "//" "/")
    if dirPath.data.isEmpty then (.ok false, st)
    else if pyStartsWith dirPath "/" then
      bindB (CWD f st "/") (fun b st =>
        if b then
          if strDrop1 dirPath == "" then (.ok true, st)
          else FileExists f st (strDrop1 dirPath)
        else (.ok false, st))
    else
      let path := pySplit dirPath "/"
      let e := path.getLastD ""
      let rest := joinWith "/" path.dropLast
      if rest.data.isEmpty then
        if e == "" then (.ok true, st) else FileExists f st e
      else
        bindB (CWD f st rest) (fun _ st =>
          if e == "" then (.ok true, st) else FileExists f st e)

/-- Model of `FTP.SetDirectory` (lines 364-401): empty target is a no-op,
an absolute target equal to the cached path short-circuits, otherwise
walk the component list. -/
def SetDirectory : Nat → St → String → Bool → Out Bool × St
  | 0, st, _, _ => (.fuelOut, st)
  | f + 1, st, newdir, create =>
    let st := setLM "" st
    if newdir.data.isEmpty then (.ok true, st)
    else if pyStartsWith newdir "/" && newdir == st.curdirpath then (.ok true, st)
    else SetDirWalk f st (pyComponents newdir) create

/-- Component walk of `FTP.SetDirectory` (lines 385-401): for each
component in order, check existence; if missing, fail unless creation is
allowed, in which case create it (failing the whole call if that fails);
then change into it, aborting the remaining walk on failure. -/
def SetDirWalk : Nat → St → List String → Bool → Out Bool × St
  | 0, st, _, _ => (.fuelOut, st)
  | f + 1, st, comps, create =>
    match comps with
    | [] => (.ok true, st)
    | c :: rest =>
      bindB (FileExists f st c) (fun ex st =>
        if ex then
          bindB (CWD f st c) (fun b st =>
            if b then SetDirWalk f st rest create else (.ok false, st))
        else if !create then (.ok false, st)
        else
          bindB (MKD f st c) (fun mk st =>
            if mk then
              bindB (CWD f st c) (fun b st =>
                if b then SetDirWalk f st rest create else (.ok false, st))
            else (.ok false, st)))

/-- Model of `FTP.DeleteFile` (lines 165-185): an empty or whitespace-only
name is `assert False`; a missing file is a no-op success; the delete
verb runs under one-shot retry with an unguarded second attempt. -/
def DeleteFile : Nat → St → String → Out Bool × St
  | 0, st, _ => (.fuelOut, st)
  | f + 1, st, fname =>
    let st := setLM "" st
    if (pyStrip fname).data.isEmpty then (.halted, st)
    else
      bindB (FileExists f st fname) (fun ex st =>
        if !ex then (.ok true, st)
        else
          bindP (doMsg (.deleteA fname) st)
            (fun msg st => (.ok (code250 msg), st))
            (fun st =>
              bindB (Reconnect f st) (fun b st =>
                if b then
                  bindP (doMsg (.deleteA fname) st)
                    (fun msg st => (.ok (code250 msg), st))
                    (fun st => (.exn, st))
                else (.ok false, st))))

/-- Model of `FTP.Rename` (lines 189-213): empty or whitespace-only names
are `assert False`; a missing source fails; the rename verb runs under
one-shot retry with an unguarded second attempt. -/
def Rename : Nat → St → String → String → Out Bool × St
  | 0, st, _, _ => (.fuelOut, st)
  | f + 1, st, oldname, newname =>
    let st := setLM "" st
    if (pyStrip oldname).data.isEmpty || (pyStrip newname).data.isEmpty then (.halted, st)
    else
      bindB (FileExists f st oldname) (fun ex st =>
        if !ex then (.ok false, setLM "FTP.Rename: oldname does not exist." st)
        else
          bindP (doMsg (.renameA oldname newname) st)
            (fun msg st => (.ok (code250 msg), setLM msg st))
            (fun st =>
              bindB (Reconnect f st) (fun b st =>
                if b then
                  bindP (doMsg (.renameA oldname newname) st)
                    (fun msg st => (.ok (code250 msg), setLM msg st))
                    (fun st => (.exn, st))
                else (.ok false, st))))

/-- Model of `FTP.DeleteDir` (lines 219-250): empty or whitespace-only
name is `assert False`, as is the root "/"; a missing directory is a
no-op success; otherwise delete every listed file, then remove the
directory under one-shot retry with an unguarded second attempt. -/
def DeleteDir : Nat → St → String → Out Bool × St
  | 0, st, _ => (.fuelOut, st)
  | f + 1, st, dirname =>
    let st := setLM "" st
    if (pyStrip dirname).data.isEmpty then (.halted, st)
    else if dirname == "/" then (.halted, st)
    else
      bindB (FileExists f st dirname) (fun ex st =>
        if !ex then (.ok true, st)
        else
          bindB (Nlst f st dirname) (fun files st =>
            bindB (DelLoop f st files) (fun _ st =>
              bindP (doMsg (.rmdA dirname) st)
                (fun msg st => (.ok (code250 msg), setLM msg st))
                (fun st =>
                  bindB (Reconnect f st) (fun b st =>
                    if b then
                      bindP (doMsg (.rmdA dirname) st)
                        (fun msg st => (.ok (code250 msg), setLM msg st))
                        (fun st => (.exn, st))
                    else (.ok false, st))))))

/-- File-deletion loop of `FTP.DeleteDir` (lines 235-237); each result is
ignored. -/
def DelLoop : Nat → St → List String → Out Unit × St
  | 0, st, _ => (.fuelOut, st)
  | f + 1, st, files =>
    match files with
    | [] => (.ok (), st)
    | x :: rest => bindB (DeleteFile f st x) (fun _ st => DelLoop f st rest)

/-- Model of `FTP.Nlst` (lines 637-647): no transport means an empty list,
as does a failed `SetDirectory`; the listing verb itself is unguarded
and filters out "." and "..". -/
def Nlst : Nat → St → String → Out (List String) × St
  | 0, st, _ => (.fuelOut, st)
  | f + 1, st, directory =>
    let st := setLM "" st
    if !st.ftpPresent then (.ok [], st)
    else
      bindB (SetDirectory f st directory false) (fun b st =>
        if !b then (.ok [], st)
        else
          bindP (doNlst st)
            (fun names st => (.ok (names.filter (fun x => x != "." && x != "..")), st))
            (fun st => (.exn, st)))

/-- Model of `FTP.PutString` (lines 406-426): requires a transport; the
STOR verb runs under one-shot retry (unguarded second attempt) and the
result is `True` whenever the verb did not raise -- the reply text is
logged but never inspected. -/
def PutString : Nat → St → String → String → Out Bool × St
  | 0, st, _, _ => (.fuelOut, st)
  | f + 1, st, fname, _s =>
    let st := setLM "" st
    if !st.ftpPresent then (.ok false, st)
    else
      bindP (doMsg (.storA fname) st)
        (fun _ st => (.ok true, st))
        (fun st =>
          bindB (Reconnect f st) (fun b st =>
            if b then
              bindP (doMsg (.storA fname) st)
                (fun _ st => (.ok true, st))
                (fun st => (.exn, st))
            else (.ok false, st)))

/-- Model of `FTP.AppendString` (lines 431-451): same shape as
`PutString` with the APPE verb. -/
def AppendString : Nat → St → String → String → Out Bool × St
  | 0, st, _, _ => (.fuelOut, st)
  | f + 1, st, fname, _s =>
    let st := setLM "" st
    if !st.ftpPresent then (.ok false, st)
    else
      bindP (doMsg (.appeA fname) st)
        (fun _ st => (.ok true, st))
        (fun st =>
          bindB (Reconnect f st) (fun b st =>
            if b then
              bindP (doMsg (.appeA fname) st)
                (fun _ st => (.ok true, st))
                (fun st => (.exn, st))
            else (.ok false, st)))

/-- Model of `FTP.GetAsString` (lines 584-617): requires a transport and
an existing file; the RETR verb runs under one-shot retry (unguarded
second attempt); a reply not starting with "226" yields `none`,
otherwise the retrieved text. -/
def GetAsString : Nat → St → String → Out (Option String) × St
  | 0, st, _ => (.fuelOut, st)
  | f + 1, st, fname =>
    let st := setLM "" st
    if !st.ftpPresent then (.ok none, st)
    else
      bindB (FileExists f st fname) (fun ex st =>
        if !ex then (.ok none, st)
        else
          bindP (doRetr fname st)
            (fun md st => (gasFin md, st))
            (fun st =>
              bindB (Reconnect f st) (fun b st =>
                if b then
                  bindP (doRetr fname st)
                    (fun md st => (gasFin md, st))
                    (fun st => (.exn, st))
                else (.ok none, st))))

end

/-- Test for a make-directory action in the trace. -/
def isMkdAct : Act → Bool
  | .mkdA _ => true
  | _ => false

/-- Number of make-directory verbs attempted so far. -/
def mkds (st : St) : Nat := st.trace.countP isMkdAct



/-!
Lock protocol (class `Lock`, lines 653-712 of the source).

The lock operations act through the transfer layer: `GetAsString` of the
remote object `<dir>/Lock` (yielding `None` for a missing record, the
body otherwise), `PutString` to (over)write it, `DeleteFile` to remove
it.  Here the lock functions are modelled over the results of those
collaborator calls: `current` is what `GetAsString` returned, `putOk`
and `delOk` are the Boolean results of `PutString` and `DeleteFile`.

Timestamps: the source stores `datetime.now().strftime('%Y-%m-%d
%H:%M:%S')` and parses it back with `strptime` of the same format,
comparing with `timedelta(hours=12)`.  The external `datetime` library
is modelled abstractly by a seconds count: `strfTime` renders a time as
its decimal seconds value and `strpTime` parses exactly the strings that
are decimal numerals, returning `none` (Python: `strptime` raises
`ValueError`) on anything else, in particular on the empty string.
-/

/-- Render a time (seconds count) in the stored timestamp format. -/
def strfTime (t : Nat) : String := toString t

/-- Parse a stored timestamp; `none` models a `strptime` failure. -/
def strpTime (s : String) : Option Nat :=
  if s.data ≠ [] && s.data.all Char.isDigit then
    some (s.data.foldl (fun n c => n * 10 + (c.toNat - 48)) 0)
  else none

/-- Date part of a time, used in the lock-refusal message (models the
`%Y-%m-%d` rendering as the day number). -/
def strfDate (t : Nat) : String := toString (t / 86400)

/-- Clock part of a time, used in the lock-refusal message (models the
`%H:%M:%S` rendering as the second of the day). -/
def strfClock (t : Nat) : String := toString (t % 86400)

/-- Python `s.split("=", 1)`: at most one split, at the first "=". -/
def pySplitEq1 (s : String) : List String :=
  match pySplit s "=" with
  | [] => [s]
  | [x] => [x]
  | x :: rest => [x, joinWith "=" rest]

/-- Lock record body written by `Lock.MakeLock` (line 691):
`f"{id}={now}"`. -/
def lockBody (id : String) (now : Nat) : String := id ++ "=" ++ strfTime now

/-- Model of `Lock.GetLock` (lines 680-687): a missing or empty record is
`("", "")`; otherwise split at the first "=" with a padding element, so
a record without "=" yields an empty timestamp part. -/
def GetLock (lock : Option String) : String × String :=
  match lock with
  | none => ("", "")
  | some l =>
    if l == "" then ("", "")
    else
      let lockbits := pySplitEq1 l ++ [""]
      (lockbits.headD "", (lockbits.drop 1).headD "")

/-- Result of `Lock.SetLock`: a returned message together with the lock
store after the call, or a raised exception (`strptime` failure, or
`MakeLock` raising because its `PutString` failed). -/
inductive LockRes where
  | ret (msg : String) (store : Option String)
  | raised
deriving DecidableEq

/-- Model of `Lock.SetLock` (lines 656-677) over the result `current` of
reading the record and the result `putOk` of the write issued by
`MakeLock`.  An absent/empty record, one owned by `id`, one with an
empty owner, or one whose parsed timestamp is more than 12 hours
(43200 s) older than `now` is overwritten with `lockBody id now` and ""
is returned; otherwise a non-empty refusal message naming the owner and
lock time is returned and nothing is written.  A timestamp that fails to
parse raises. -/
def SetLock (current : Option String) (putOk : Bool) (now : Nat) (id : String) : LockRes :=
  let mk : LockRes := if putOk then .ret "" (some (lockBody id now)) else .raised
  let lockid := (GetLock current).1
  let lockdate := (GetLock current).2
  if lockid == "" then mk
  else if lockid == id || lockid == "" then mk
  else
    match strpTime lockdate with
    | none => .raised
    | some t =>
      if now - t > 43200 then mk
      else .ret ("Locked by " ++ lockid ++ " on " ++ strfDate t ++ " at " ++ strfClock t) current

/-- Result of `Lock.ReleaseLock`: a Boolean together with the lock store
after the call, or a raised exception. -/
inductive RelRes where
  | ret (b : Bool) (store : Option String)
  | raised
deriving DecidableEq

/-- Model of `Lock.ReleaseLock` (lines 699-712) over the result `current`
of reading the record and the result `delOk` of the `DeleteFile` call.
A missing record returns `True`.  Otherwise the body is unpacked with
`lockid, lockdate = lock.split("=", 1)` -- which raises when the body
holds no "=" (in particular when it is empty).  A matching owner deletes
the record and returns `True` exactly when the deletion succeeded; any
other case returns `False` with the record left in place. -/
def ReleaseLock (current : Option String) (delOk : Bool) (id : String) : RelRes :=
  match current with
  | none => .ret true none
  | some lock =>
    match pySplitEq1 lock with
    | [lockid, _lockdate] =>
      if lockid == id then
        if delOk then .ret true none else .ret false (some lock)
      else .ret false (some lock)
    | _ => .raised

/-! Helper lemmas. -/

/-- A list is a Boolean prefix of itself followed by anything. -/
theorem hasPrefixCh_append (p r : List Char) : hasPrefixCh p (p ++ r) = true := by
  induction p with
  | nil => rfl
  | cons c cs ih => simp [hasPrefixCh, ih]

/-- A string starts with itself followed by anything. -/
theorem pyStartsWith_append (p r : String) : pyStartsWith (p ++ r) p = true := by
  have h : (p ++ r).data = p.data ++ r.data := rfl
  simp [pyStartsWith, h, hasPrefixCh_append]

/-!
Claim C5 (SetLock state machine).

The claim quantifies over every stored record.  It fails on records whose
timestamp part does not parse: for a record held by another owner whose
"timestamp" is unparseable (for instance a body with no "=" at all, whose
timestamp part is the empty string), the source calls
`datetime.strptime(lockdate, ...)` which raises `ValueError`, so `SetLock`
raises instead of returning a message.  The amended claim restricts the
message branch to records with a parseable timestamp.
-/

/-- Claim C5, counterexample: with the stored record "alice" (no "=", so
its timestamp part is empty and unparseable), owner `"bob"` and any
current time, `SetLock` raises instead of returning a non-empty message
naming the stored owner as the claim requires. -/
theorem C5_counterexample : SetLock (some "alice") true 100000 "bob" = LockRes.raised := by
  decide

/-- Claim C5 (amended): `SetLock` writes `"<ownerId>=<now>"` and returns
the empty string whenever the record is absent or empty, is owned by
`ownerId`, has an empty owner id, or has a parseable stored timestamp
more than 12 hours older than now; when the owner differs and the
timestamp parses to within 12 hours it writes nothing and returns a
non-empty message naming the stored owner; and when the owner differs
and the stored timestamp does not parse it raises. -/
theorem C5_amended (current : Option String) (putOk : Bool) (now : Nat) (id : String) :
    (putOk = true →
      ((GetLock current).1 = "" ∨ (GetLock current).1 = id →
        SetLock current putOk now id = .ret "" (some (lockBody id now))) ∧
      (∀ t, (GetLock current).1 ≠ id →
        strpTime (GetLock current).2 = some t → now - t > 43200 →
        SetLock current putOk now id = .ret "" (some (lockBody id now)))) ∧
    (∀ t, (GetLock current).1 ≠ "" → (GetLock current).1 ≠ id →
      strpTime (GetLock current).2 = some t → ¬(now - t > 43200) →
      ∃ msg, SetLock current putOk now id = .ret msg current ∧ msg ≠ "" ∧
        pyStartsWith msg ("Locked by " ++ (GetLock current).1) = true) ∧
    ((GetLock current).1 ≠ "" → (GetLock current).1 ≠ id →
      strpTime (GetLock current).2 = none →
      SetLock current putOk now id = .raised) := by
  refine ⟨fun hput => ⟨fun h => ?_, fun t hid hts hexp => ?_⟩, fun t h0 hid hts hlive => ?_,
    fun h0 hid hts => ?_⟩
  · rcases h with h | h <;> simp [SetLock, h, hput]
  · by_cases h0 : (GetLock current).1 = ""
    · simp [SetLock, h0, hput]
    · simp [SetLock, h0, hid, hts, hexp, hput]
  · refine ⟨"Locked by " ++ (GetLock current).1 ++ " on " ++ strfDate t ++ " at " ++ strfClock t,
      ?_, ?_, ?_⟩
    · simp [SetLock, h0, hid, hts, hlive]
    · intro hc
      have : ("Locked by " ++ (GetLock current).1 ++ " on " ++ strfDate t ++ " at " ++
          strfClock t).data = [] := by rw [hc]
      simp [String.data_append] at this
    · have h : "Locked by " ++ (GetLock current).1 ++ " on " ++ strfDate t ++ " at " ++
          strfClock t =
          ("Locked by " ++ (GetLock current).1) ++
            (" on " ++ strfDate t ++ " at " ++ strfClock t) := by
        simp [String.append_assoc]
      rw [h]
      exact pyStartsWith_append _ _
  · simp [SetLock, h0, hid, hts]

/-- Claim C5's witness: with the record "carol=100", owner `"bob"` at time
40000 (within 12 hours) is refused with a message naming carol, and at
time 200000 (beyond 12 hours) acquires the lock. -/
theorem C5_witness :
    (∃ msg, SetLock (some "carol=100") true 40000 "bob" = .ret msg (some "carol=100") ∧
      msg ≠ "" ∧
      pyStartsWith msg ("Locked by " ++ (GetLock (some "carol=100")).1) = true) ∧
    SetLock (some "carol=100") true 200000 "bob" = .ret "" (some (lockBody "bob" 200000)) :=
  ⟨(C5_amended (some "carol=100") true 40000 "bob").2.1 100 (by decide) (by decide)
      (by decide) (by decide),
    ((C5_amended (some "carol=100") true 200000 "bob").1 rfl).2 100 (by decide)
      (by decide) (by decide)⟩

/-!
Claim C6 (ReleaseLock contract).

The claim quantifies over every stored record.  It fails on records whose
body contains no "=" (in particular the empty body): the source unpacks
`lock.split("=", 1)` into two variables, which raises `ValueError` there,
so `ReleaseLock` raises instead of returning false on those records.
-/

/-- Claim C6, counterexample: with the stored record being the empty
string (whose owner, "", differs from `"bob"`), `ReleaseLock` raises a
`ValueError` from tuple unpacking instead of returning `false` as the
claim requires for an owner mismatch. -/
theorem C6_counterexample : ReleaseLock (some "") true "bob" = RelRes.raised := by
  decide

/-- Claim C6 (amended): `ReleaseLock` returns true when no record exists;
when the record contains "=" and its owner equals `ownerId` it deletes
the record and returns true exactly when the deletion succeeds; an owner
mismatch or a deletion failure returns false with the record unchanged;
and a record without "=" (including an empty body) raises. -/
theorem C6_amended (current : Option String) (delOk : Bool) (id : String) :
    (current = none → ReleaseLock current delOk id = .ret true none) ∧
    (∀ l lockid rest, current = some l → pySplitEq1 l = [lockid, rest] →
      (lockid = id → delOk = true → ReleaseLock current delOk id = .ret true none) ∧
      (lockid = id → delOk = false → ReleaseLock current delOk id = .ret false (some l)) ∧
      (lockid ≠ id → ReleaseLock current delOk id = .ret false (some l))) ∧
    (∀ l, current = some l → (pySplitEq1 l).length ≠ 2 →
      ReleaseLock current delOk id = .raised) := by
  refine ⟨fun h => by simp [ReleaseLock, h], fun l lockid rest hc hsplit => ?_, fun l hc hlen => ?_⟩
  · subst hc
    refine ⟨fun hid hdel => by simp [ReleaseLock, hsplit, hid, hdel],
      fun hid hdel => by simp [ReleaseLock, hsplit, hid, hdel],
      fun hid => by simp [ReleaseLock, hsplit, hid]⟩
  · subst hc
    rcases hsplit : pySplitEq1 l with _ | ⟨a, _ | ⟨b, _ | ⟨c, tl⟩⟩⟩
    · simp [ReleaseLock, hsplit]
    · simp [ReleaseLock, hsplit]
    · simp [hsplit] at hlen
    · simp [ReleaseLock, hsplit]

/-- Claim C6's witness: releasing one's own lock succeeds and removes the
record; releasing a lock held by "alice" as "bob" returns false and
leaves the record; a record without "=" raises. -/
theorem C6_witness :
    ReleaseLock (some "alice=5") true "alice" = .ret true none ∧
    ReleaseLock (some "alice=5") true "bob" = .ret false (some "alice=5") ∧
    ReleaseLock (some "xyz") true "bob" = .raised :=
  ⟨((C6_amended (some "alice=5") true "alice").2.1 "alice=5" "alice" "5" rfl
      (by decide)).1 rfl rfl,
    ((C6_amended (some "alice=5") true "bob").2.1 "alice=5" "alice" "5" rfl
      (by decide)).2.2 (by decide),
    (C6_amended (some "xyz") true "bob").2.2 "xyz" rfl (by decide)⟩

/-!
Claim C7 (empty lock body means unlocked, uniformly).

The claim fails for `ReleaseLock`: `GetLock` and `SetLock` do treat an
empty body like an absent record, but `ReleaseLock` unpacks
`lock.split("=", 1)` into two variables, and for the empty body the
split yields a single element, so the call raises `ValueError` instead
of returning true.
-/

/-- Claim C7, counterexample: on a lock object with an empty body,
`ReleaseLock` raises a `ValueError` instead of returning `true` without
exception as the claim requires. -/
theorem C7_counterexample : ReleaseLock (some "") false "alice" = RelRes.raised := by
  decide

/-- Claim C7 (amended): an empty lock body is treated like an absent
record by `GetLock` (both fields empty) and by `SetLock` (the lock is
acquired and the empty string returned), but `ReleaseLock` raises an
unpacking error on the empty body for every ownerId, instead of
returning true as it does for an absent record. -/
theorem C7_amended (id : String) (now : Nat) (delOk : Bool) :
    GetLock (some "") = ("", "") ∧
    SetLock (some "") true now id = .ret "" (some (lockBody id now)) ∧
    GetLock none = ("", "") ∧
    SetLock none true now id = .ret "" (some (lockBody id now)) ∧
    ReleaseLock none delOk id = .ret true none ∧
    ReleaseLock (some "") delOk id = .raised :=
  ⟨rfl, rfl, rfl, rfl, rfl, rfl⟩

/-- Helper: a string with a non-empty Boolean prefix has non-empty data. -/
theorem startsWith_data_ne {x p : String} (hp : p.data ≠ []) (h : pyStartsWith x p = true) :
    x.data.isEmpty = false := by
  cases hx : x.data with
  | nil =>
    rcases hd : p.data with _ | ⟨c, cs⟩
    · exact absurd hd hp
    · simp [pyStartsWith, hx, hd, hasPrefixCh] at h
  | cons a l => rfl

/-- Helper: a non-empty string has non-empty data. -/
theorem ne_empty_data {x : String} (h : x ≠ "") : x.data.isEmpty = false := by
  cases x with
  | mk data =>
    cases data with
    | nil => exact absurd rfl h
    | cons a l => rfl

/-!
Claim C3 (ChangeDirectory contract).

The claim's short-circuit condition fails on the code: `CWD` compares
`wd == newdir or wd + "/" == newdir`, which is one-sided.  When the
server reports "/a/" and the target is "/a" the two are equal under the
trailing-separator-insensitive comparison, yet neither disjunct holds,
so `CWD` issues the change-directory verb anyway.  The cache-update rule
itself holds, stated for the target after the code's double-slash
collapse.
-/

/-- Claim C3, counterexample: with the server reporting "/a/" and the
target "/a" -- equal when a trailing separator is ignored -- `CWD` does
not short-circuit: it issues the change-directory verb (the verb appears
in the trace), contradicting the claimed "returns success without
issuing a change-directory verb". -/
theorem C3_counterexample :
    ComparePaths "/a/" "/a" = true ∧
    (CWD 10 ⟨true, true, "/a", "/a/", "",
        [.pwdOk, .cwdR "250 OK. dir changed" (some "/a"), .pwdOk], []⟩ "/a").1 = .ok true ∧
    ((CWD 10 ⟨true, true, "/a", "/a/", "",
        [.pwdOk, .cwdR "250 OK. dir changed" (some "/a"), .pwdOk], []⟩ "/a").2.trace.contains
      (.cwdA "/a")) = true := by
  decide

/-- Claim C3 (amended): `CWD` first queries the authoritative path `wd`
and returns success without issuing the verb exactly when `wd` equals
the double-slash-collapsed target or the target is `wd` plus a trailing
separator (a one-sided check, not the symmetric separator-insensitive
comparison); when the verb is issued and the reply starts with
"250 OK.", the cache is updated by the rule applied to the collapsed
target: an absolute target replaces the cache with the collapsed target
exactly, ".." replaces the cache by its `os.path.split` parent (no-op at
the root), and any other target is appended as one trailing segment with
a separator inserted unless the cache is the root. -/
theorem C3_amended (f : Nat) (cr : Bool) (cp sp lm : String) (sc : List Ev) (tr : List Act)
    (d cur t : String) :
    (ComparePaths cp sp = true →
      (sp == pyReplace d "//" "/" || sp ++ "/" == pyReplace d "//" "/") = true →
      CWD (f + 3) ⟨true, cr, cp, sp, lm, .pwdOk :: sc, tr⟩ d =
        (.ok true, ⟨true, cr, cp, sp, lm, sc, .pwdA :: tr⟩)) ∧
    (pyStartsWith (pyReplace t "//" "/") "/" = true →
      UpdateCurpath cur t = some (pyReplace t "//" "/")) ∧
    (pyReplace t "//" "/" = ".." → cur = "/" → UpdateCurpath cur t = some cur) ∧
    (pyReplace t "//" "/" = ".." → cur ≠ "/" →
      UpdateCurpath cur t = some (posixSplitHead cur)) ∧
    (pyReplace t "//" "/" ≠ "" → pyStartsWith (pyReplace t "//" "/") "/" = false →
      pyReplace t "//" "/" ≠ ".." →
      UpdateCurpath cur t =
        some (if cur == "/" then cur ++ pyReplace t "//" "/"
          else cur ++ "/" ++ pyReplace t "//" "/")) ∧
    (posixSplitHead "/a/b" = "/a" ∧ posixSplitHead "/a" = "/" ∧
      UpdateCurpath "/a/b" ".." = some "/a" ∧
      (CWD 10 ⟨true, true, "/a", "/a", "",
          [.pwdOk, .cwdR "250 OK." (some "/a/sub"), .pwdOk], []⟩ "sub").1 = .ok true ∧
      (CWD 10 ⟨true, true, "/a", "/a", "",
          [.pwdOk, .cwdR "250 OK." (some "/a/sub"), .pwdOk], []⟩ "sub").2.curdirpath =
        "/a/sub") := by
  refine ⟨fun hcp hsc => ?_, fun h => ?_, fun h hc => ?_, fun h hc => ?_,
    fun h1 h2 h3 => ?_, by decide⟩
  · simp [CWD, PWD, bindB, bindP, doPwd, pwdCheck, pushA, popEv, hcp, hsc]
  · have hne : (pyReplace t "//" "/").data.isEmpty = false :=
      startsWith_data_ne (by decide) h
    simp [UpdateCurpath, hne, h]
  · have hs : pyStartsWith ".." "/" = false := by decide
    simp only [UpdateCurpath]
    rw [h]
    simp [hs, hc]
  · have hs : pyStartsWith ".." "/" = false := by decide
    simp only [UpdateCurpath]
    rw [h]
    simp [hs, bne_iff_ne, hc]
  · have hne : (pyReplace t "//" "/").data.isEmpty = false := ne_empty_data h1
    simp only [UpdateCurpath]
    simp [hne, h2, h3]
    split <;> simp

/-- Claim C3's witness: short-circuit at a server path equal to the
target, and the three cache-update cases at concrete inputs. -/
theorem C3_witness :
    CWD 10 ⟨true, true, "/a", "/a", "", .pwdOk :: [], []⟩ "/a" =
      (.ok true, ⟨true, true, "/a", "/a", "", [], .pwdA :: []⟩) ∧
    UpdateCurpath "/x" "/b" = some (pyReplace "/b" "//" "/") ∧
    UpdateCurpath "/x/y" ".." = some (posixSplitHead "/x/y") ∧
    UpdateCurpath "/" ".." = some "/" ∧
    UpdateCurpath "/x" "sub" =
      some (if "/x" == "/" then "/x" ++ pyReplace "sub" "//" "/"
        else "/x" ++ "/" ++ pyReplace "sub" "//" "/") :=
  ⟨(C3_amended 7 true "/a" "/a" "" [] [] "/a" "/" "").1 (by decide) (by decide),
    (C3_amended 7 true "/a" "/a" "" [] [] "/a" "/x" "/b").2.1 (by decide),
    (C3_amended 7 true "/a" "/a" "" [] [] "/a" "/x/y" "..").2.2.2.1 (by decide) (by decide),
    (C3_amended 7 true "/a" "/a" "" [] [] "/a" "/" "..").2.2.1 (by decide) rfl,
    (C3_amended 7 true "/a" "/a" "" [] [] "/a" "/x" "sub").2.2.2.2.1 (by decide) (by decide)
      (by decide)⟩

/-!
Claim C1 (path-cache consistency invariant).

The claim fails on the code.  The consistency mechanism is the assert in
`PWD`, but the reconnect-failure arms of `CWD` return early without ever
reaching it: when the change-directory verb raises and the reconnect
attempt fails after having already opened a fresh transport (its
`cwd("/")` reply is not "250 OK."), `CWD` completes with `False` while
the transport is present, the cached path is unchanged and the server
sits wherever the fresh session started -- silently diverged, no halt.
On fault-free runs the invariant does hold: every completion of `CWD`
passes through the final `PWD`, whose assert either certifies
`ComparePaths` agreement or halts the process.
-/

/-- Claim C1, counterexample: cached path "/a", server at "/a"; the
change-directory verb raises, `Reconnect` opens a fresh transport (the
server session restarts at "/") but its root change replies "550 no",
so reconnection fails and `CWD` completes with `.ok false` -- transport
present, cache "/a" against server "/", no halt: the invariant is
violated silently. -/
theorem C1_counterexample :
    (CWD 10 ⟨true, true, "/a", "/a", "",
        [.pwdOk, .raise, .connOk, .cwdR "550 no" none], []⟩ "/b").1 = .ok false ∧
    (CWD 10 ⟨true, true, "/a", "/a", "",
        [.pwdOk, .raise, .connOk, .cwdR "550 no" none], []⟩ "/b").2.ftpPresent = true ∧
    ComparePaths
      (CWD 10 ⟨true, true, "/a", "/a", "",
          [.pwdOk, .raise, .connOk, .cwdR "550 no" none], []⟩ "/b").2.curdirpath
      (CWD 10 ⟨true, true, "/a", "/a", "",
          [.pwdOk, .raise, .connOk, .cwdR "550 no" none], []⟩ "/b").2.serverPath = false := by
  decide

/-- Claim C1 (amended): a detected mismatch between the cached path and
the server's answer halts the process (the `PWD` assert); and on any
transport-fault-free execution of `CWD` that completes with a Boolean
result, the cached path agrees with the server's path under the
separator-insensitive comparison.  But when the operation's reconnect
attempt fails, `CWD` can complete with the transport present and the
cache silently diverged (see the counterexample). -/
theorem C1_amended (f : Nat) (cr : Bool) (cp sp lm : String) (sc : List Ev) (tr : List Act)
    (d m : String) (mv : Option String) (b : Bool) (st' : St) :
    (ComparePaths cp sp = false →
      PWD (f + 1) ⟨true, cr, cp, sp, lm, .pwdOk :: sc, tr⟩ =
        (.halted, ⟨true, cr, cp, sp, lm, sc, .pwdA :: tr⟩)) ∧
    (CWD (f + 3) ⟨true, cr, cp, sp, lm, .pwdOk :: .cwdR m mv :: .pwdOk :: sc, tr⟩ d =
        (.ok b, st') →
      ComparePaths st'.curdirpath st'.serverPath = true) := by
  constructor
  · intro hne
    simp [PWD, bindP, doPwd, pwdCheck, pushA, popEv, hne]
  · intro h
    simp [CWD, PWD, bindB, bindP, doPwd, pwdCheck, pushA, popEv] at h
    by_cases hcp : ComparePaths cp sp = true
    · simp only [hcp, if_true] at h
      by_cases hsc : sp = pyReplace d "//" "/" ∨ sp ++ "/" = pyReplace d "//" "/"
      · rw [if_pos hsc] at h
        cases h
        simpa using hcp
      · rw [if_neg hsc] at h
        simp [doCwd, CWDfin, bindB, bindP, PWD, doPwd, pwdCheck, pushA, popEv, setCur] at h
        by_cases hm : cwdOkCheck m = true
        · simp only [hm, if_true] at h
          rcases hu : UpdateCurpath cp (pyReplace d "//" "/") with _ | cur
          · rw [hu] at h
            simp at h
          · rw [hu] at h
            by_cases hc2 : ComparePaths cur (mv.getD sp) = true
            · simp only [hc2, if_true] at h
              cases h
              simpa using hc2
            · simp only [hc2, if_false] at h
              simp at h
        · simp only [hm, if_false] at h
          by_cases hc3 : ComparePaths cp (mv.getD sp) = true
          · simp only [hc3, if_true] at h
            cases h
            simpa using hc3
          · simp only [hc3, if_false] at h
            simp at h
    · simp only [hcp] at h
      simp at h

/-- Claim C1's witness: a concrete fault-free run of `CWD` ends with the
cache agreeing with the server, and a concrete mismatched state halts. -/
theorem C1_witness :
    ComparePaths
      (CWD 10 ⟨true, true, "/a", "/a", "",
          [.pwdOk, .cwdR "250 OK." (some "/a/s"), .pwdOk], []⟩ "s").2.curdirpath
      (CWD 10 ⟨true, true, "/a", "/a", "",
          [.pwdOk, .cwdR "250 OK." (some "/a/s"), .pwdOk], []⟩ "s").2.serverPath = true ∧
    PWD 8 ⟨true, true, "/a", "/b", "", .pwdOk :: [], []⟩ =
      (.halted, ⟨true, true, "/a", "/b", "", [], .pwdA :: []⟩) :=
  ⟨(C1_amended 7 true "/a" "/a" "" [] [] "s" "250 OK." (some "/a/s") true
      (CWD 10 ⟨true, true, "/a", "/a", "",
        [.pwdOk, .cwdR "250 OK." (some "/a/s"), .pwdOk], []⟩ "s").2).2 (by decide),
    (C1_amended 7 true "/a" "/b" "" [] [] "s" "250 OK." none true
      ⟨true, true, "/a", "/b", "", [], [.pwdA]⟩).1 (by decide)⟩

/-!
Claim C8 (two success-detection strategies).

Both halves of the claim fail on the code.  Directory/file verbs do not
uniformly use a literal code-plus-space prefix: `CWD` demands the longer
prefix "250 OK." (so the reply "250 ready" is reported as failure even
though it starts with "250 "), and `MKD` additionally accepts a reply
equal to the directory name with no code at all.  Binary transfer verbs
do not uniformly use the exact banner: `GetAsString` accepts any RETR
reply starting with "226" (a prefix-only match), and STOR/APPE replies
are never inspected; only `CopyAndRenameFile`'s RETR path goes through
the exact-banner `IsSuccess`.
-/

/-- Claim C8, counterexample: the reply "250 ready" starts with "250 "
yet `CWD` reports failure on it; and the reply "226 Transfer complete"
is not the exact banner yet `GetAsString` treats it as success; and
`MKD` reports success on a reply equal to the directory name that
carries no three-digit code at all. -/
theorem C8_counterexample :
    code250 "250 ready" = true ∧
    (CWD 10 ⟨true, true, "/", "/", "", [.pwdOk, .cwdR "250 ready" none, .pwdOk], []⟩
        "/b").1 = .ok false ∧
    IsSuccess "226 Transfer complete" = false ∧
    (GetAsString 10
        ⟨true, true, "/", "/", "", [.listR ["f"], .retrR "226 Transfer complete" "hello"], []⟩
        "f").1 = .ok (some "hello") ∧
    mkdCheck "newdir" "newdir" = true ∧
    pyStartsWith "newdir" "250 " = false ∧ pyStartsWith "newdir" "257 " = false := by
  decide

/-- Claim C8 (amended): the success tests differ per verb.  For every
reply text: change-directory succeeds exactly on the prefix "250 OK.";
make-directory succeeds exactly on a reply equal to the directory name
or starting with "250 " or "257 "; delete, rename and remove-directory
succeed exactly on the prefix "250 "; `GetAsString`'s RETR succeeds
exactly on the prefix "226" (not an exact banner match); and the exact
first-line banner match "226-File successfully transferred" is the
`IsSuccess` test (used by the RETR path of `CopyAndRenameFile`). -/
theorem C8_amended (f : Nat) (m d : String) (cr : Bool) (lm : String) (sc : List Ev)
    (tr : List Act) :
    ((CWD (f + 3) ⟨true, cr, "/", "/", lm,
        .pwdOk :: .cwdR m (if cwdOkCheck m then some "/b" else none) :: .pwdOk :: sc, tr⟩
      "/b").1 = .ok (cwdOkCheck m) ∧
      cwdOkCheck m = pyStartsWith m "250 OK.") ∧
    ((MKD (f + 1) ⟨true, cr, "/", "/", lm, .msgR m :: sc, tr⟩ d).1 = .ok (mkdCheck d m) ∧
      mkdCheck d m = (m == d || pyStartsWith m "250 " || pyStartsWith m "257 ")) ∧
    ((DeleteFile (f + 3) ⟨true, cr, "/", "/", lm, .listR ["f"] :: .msgR m :: sc, tr⟩
        "f").1 = .ok (code250 m) ∧
      code250 m = pyStartsWith m "250 ") ∧
    (Rename (f + 3) ⟨true, cr, "/", "/", lm, .listR ["f"] :: .msgR m :: sc, tr⟩
        "f" "g").1 = .ok (code250 m) ∧
    (DeleteDir (f + 7) ⟨true, cr, "/", "/", lm,
        .listR ["d"] :: .listR ["d"] :: .pwdOk :: .cwdR "250 OK." (some "/d") :: .pwdOk ::
          .listR [] :: .msgR m :: sc, tr⟩
        "d").1 = .ok (code250 m) ∧
    ((GetAsString (f + 3) ⟨true, cr, "/", "/", lm, .listR ["f"] :: .retrR m d :: sc, tr⟩
        "f").1 = (if retr226 m then .ok (some d) else .ok none) ∧
      retr226 m = pyStartsWith m "226") ∧
    (IsSuccess m = true ↔ firstLine m = "226-File successfully transferred") := by
  refine ⟨⟨?_, rfl⟩, ⟨rfl, rfl⟩, ⟨rfl, rfl⟩, rfl, rfl, ⟨rfl, rfl⟩, ?_⟩
  · have h1 : pyReplace "/b" "//" "/" = "/b" := by decide
    have h2 : ComparePaths "/" "/" = true := by decide
    have h3 : ("/" == "/b") = false := by decide
    have h4 : ("/" ++ "/" == "/b") = false := by decide
    have h5 : UpdateCurpath "/" "/b" = some "/b" := by decide
    have h6 : ComparePaths "/b" "/b" = true := by decide
    cases h : cwdOkCheck m <;>
      simp [CWD, PWD, CWDfin, bindB, bindP, doPwd, doCwd, pwdCheck, setLM, setCur, pushA,
        popEv, h, h1, h2, h3, h4, h5, h6]
  · simp only [IsSuccess, successMessages, List.any_cons, List.any_nil, Bool.or_false,
      beq_iff_eq]
    exact eq_comm

/-!
Claim C9 (ProgrammingError aborts).

The claim fails for `MakeDirectory`: `FTP.MKD` performs no argument
validation at all (lines 151-161), so `MKD("")` issues the mkd verb to
the server and returns a Boolean instead of aborting.  `DeleteFile`,
`Rename` and `DeleteDir` do abort on empty or whitespace-only required
arguments, and `DeleteDir` also aborts on the root "/".
-/

/-- Claim C9, counterexample: `MKD` called with the empty directory name
contacts the server (the mkd verb appears in the trace) and completes
normally with a Boolean result instead of aborting the process. -/
theorem C9_counterexample :
    (MKD 10 ⟨true, true, "/", "/", "", [.msgR "257 x created"], []⟩ "").1 = .ok true ∧
    (MKD 10 ⟨true, true, "/", "/", "", [.msgR "257 x created"], []⟩ "").2.trace =
      [.mkdA ""] := by
  decide

/-- Claim C9 (amended): `DeleteFile`, `Rename` and `DeleteDir` abort the
process on an empty or whitespace-only required name without contacting
the server, and `DeleteDir` aborts on the root "/"; but `MakeDirectory`
performs no such validation: with an empty name it issues the verb to
the server and returns a Boolean. -/
theorem C9_amended (f : Nat) (fp cr : Bool) (cp sp lm m : String) (sc : List Ev)
    (tr : List Act) (s o n : String) :
    (pyStrip s = "" →
      DeleteFile (f + 1) ⟨fp, cr, cp, sp, lm, sc, tr⟩ s = (.halted, ⟨fp, cr, cp, sp, "", sc, tr⟩)) ∧
    (pyStrip o = "" ∨ pyStrip n = "" →
      Rename (f + 1) ⟨fp, cr, cp, sp, lm, sc, tr⟩ o n = (.halted, ⟨fp, cr, cp, sp, "", sc, tr⟩)) ∧
    (pyStrip s = "" →
      DeleteDir (f + 1) ⟨fp, cr, cp, sp, lm, sc, tr⟩ s = (.halted, ⟨fp, cr, cp, sp, "", sc, tr⟩)) ∧
    DeleteDir (f + 1) ⟨fp, cr, cp, sp, lm, sc, tr⟩ "/" = (.halted, ⟨fp, cr, cp, sp, "", sc, tr⟩) ∧
    MKD (f + 1) ⟨true, cr, cp, sp, lm, .msgR m :: sc, tr⟩ "" =
      (.ok (mkdCheck "" m), ⟨true, cr, cp, sp, lm, sc, .mkdA "" :: tr⟩) := by
  refine ⟨fun h => ?_, fun h => ?_, fun h => ?_, ?_, rfl⟩
  · simp [DeleteFile, setLM, h]
  · rcases h with h | h <;> simp [Rename, setLM, h]
  · simp [DeleteDir, setLM, h]
  · have h : pyStrip "/" = "/" := by decide
    simp [DeleteDir, setLM, h]

/-- Claim C9's witness: concrete aborts for whitespace-only and root
arguments, and the `MKD` non-abort at the empty name. -/
theorem C9_witness :
    DeleteFile 8 ⟨true, true, "/", "/", "x", [], []⟩ " " =
      (.halted, ⟨true, true, "/", "/", "", [], []⟩) ∧
    Rename 8 ⟨true, true, "/", "/", "x", [], []⟩ "" "g" =
      (.halted, ⟨true, true, "/", "/", "", [], []⟩) ∧
    DeleteDir 8 ⟨true, true, "/", "/", "x", [], []⟩ " " =
      (.halted, ⟨true, true, "/", "/", "", [], []⟩) ∧
    DeleteDir 8 ⟨true, true, "/", "/", "x", [], []⟩ "/" =
      (.halted, ⟨true, true, "/", "/", "", [], []⟩) ∧
    MKD 8 ⟨true, true, "/", "/", "x", .msgR "257 ok" :: [], []⟩ "" =
      (.ok (mkdCheck "" "257 ok"), ⟨true, true, "/", "/", "x", [], .mkdA "" :: []⟩) :=
  ⟨(C9_amended 7 true true "/" "/" "x" "257 ok" [] [] " " "" "g").1 (by decide),
    (C9_amended 7 true true "/" "/" "x" "257 ok" [] [] " " "" "g").2.1 (Or.inl (by decide)),
    (C9_amended 7 true true "/" "/" "x" "257 ok" [] [] " " "" "g").2.2.1 (by decide),
    (C9_amended 7 true true "/" "/" "x" "257 ok" [] [] " " "" "g").2.2.2.1,
    (C9_amended 7 true true "/" "/" "x" "257 ok" [] [] " " "" "g").2.2.2.2⟩

/-!
Claim C10 (PutString/AppendString ignore the reply text).
-/

/-- Claim C10: with a transport present, whenever the STOR (`PutString`)
or APPE (`AppendString`) verb completes without raising -- on the first
attempt, or on the single post-reconnect retry -- the operation returns
`True`, for every reply text the server produces; the reply is never
inspected, so a `True` result does not mean the server reported a
successful transfer. -/
theorem C10_put_append_ignore_reply (f : Nat) (m fname s : String) (cr : Bool)
    (cp sp lm : String) (sc : List Ev) (tr : List Act) :
    PutString (f + 1) ⟨true, cr, cp, sp, lm, .msgR m :: sc, tr⟩ fname s =
      (.ok true, ⟨true, cr, cp, sp, "", sc, .storA fname :: tr⟩) ∧
    AppendString (f + 1) ⟨true, cr, cp, sp, lm, .msgR m :: sc, tr⟩ fname s =
      (.ok true, ⟨true, cr, cp, sp, "", sc, .appeA fname :: tr⟩) ∧
    PutString (f + 3) ⟨true, true, "/", sp, lm,
        .raise :: .connOk :: .cwdR "250 OK." (some "/") :: .msgR m :: sc, tr⟩ fname s =
      (.ok true, ⟨true, true, "/", "/", "", sc,
        .storA fname :: .cwdA "/" :: .connA :: .storA fname :: tr⟩) ∧
    AppendString (f + 3) ⟨true, true, "/", sp, lm,
        .raise :: .connOk :: .cwdR "250 OK." (some "/") :: .msgR m :: sc, tr⟩ fname s =
      (.ok true, ⟨true, true, "/", "/", "", sc,
        .appeA fname :: .cwdA "/" :: .connA :: .appeA fname :: tr⟩) :=
  ⟨rfl, rfl, rfl, rfl⟩

/-!
Trace lemmas: the operations reachable from `Reconnect` -- `PWD`, `CWD`,
`FileExists`, `PathExists`, and `SetDirectory` with creation disabled
(the form `Reconnect` itself uses) -- never attempt a make-directory
verb.  This underpins the bounded-creation statements of C2 and C4.
-/

/-- Pushing a non-mkd action preserves the mkd count. -/
theorem mkds_pushA (a : Act) (st : St) (h : isMkdAct a = false) :
    mkds (pushA a st) = mkds st := by
  simp [mkds, pushA, List.countP_cons, h]

/-- Event consumption preserves the mkd count. -/
theorem mkds_popEv (st : St) : mkds (popEv st) = mkds st := rfl

/-- The pwd primitive attempts no mkd verb. -/
theorem mkds_doPwd (st : St) : mkds (doPwd st).2 = mkds st := by
  unfold doPwd
  split
  · rfl
  · split <;> simp [mkds, pushA, popEv, isMkdAct, List.countP_cons]

/-- The connect primitive attempts no mkd verb. -/
theorem mkds_doConn (st : St) : mkds (doConn st).2 = mkds st := by
  unfold doConn
  split <;> simp [mkds, pushA, popEv, isMkdAct, List.countP_cons]

/-- The cwd primitive attempts no mkd verb. -/
theorem mkds_doCwd (d : String) (st : St) : mkds (doCwd d st).2 = mkds st := by
  unfold doCwd
  split
  · rfl
  · split <;> simp [mkds, pushA, popEv, isMkdAct, List.countP_cons]

/-- The nlst primitive attempts no mkd verb. -/
theorem mkds_doNlst (st : St) : mkds (doNlst st).2 = mkds st := by
  unfold doNlst
  split
  · rfl
  · split <;> simp [mkds, pushA, popEv, isMkdAct, List.countP_cons]

/-- The reply-text primitive attempts at most one verb, so at most one
mkd verb. -/
theorem mkds_doMsg_le (a : Act) (st : St) : mkds (doMsg a st).2 ≤ mkds st + 1 := by
  unfold doMsg
  split
  · exact Nat.le_succ _
  · split <;> simp [mkds, pushA, popEv, List.countP_cons] <;> split <;> omega

/-- Sequencing preserves a trace invariant through `bindB`. -/
theorem mkds_bindB {α β : Type} {n : Nat} (r : Out α × St) (k : α → St → Out β × St)
    (h1 : mkds r.2 = n) (h2 : ∀ a st, mkds st = n → mkds (k a st).2 = n) :
    mkds (bindB r k).2 = n := by
  rcases r with ⟨o, st⟩
  cases o with
  | ok a => exact h2 a st h1
  | exn => exact h1
  | halted => exact h1
  | fuelOut => exact h1

/-- Sequencing preserves a trace invariant through `bindP`. -/
theorem mkds_bindP {α β : Type} {n : Nat} (p : Option α × St)
    (k1 : α → St → Out β × St) (k2 : St → Out β × St)
    (h1 : mkds p.2 = n) (h2 : ∀ a st, mkds st = n → mkds (k1 a st).2 = n)
    (h3 : ∀ st, mkds st = n → mkds (k2 st).2 = n) :
    mkds (bindP p k1 k2).2 = n := by
  rcases p with ⟨o, st⟩
  cases o with
  | some a => exact h2 a st h1
  | none => exact h3 st h1

/-- The operations reachable from `Reconnect` never attempt an mkd verb:
`Reconnect`, `PWD`, `CWD`, `FileExists`, `PathExists`, and
`SetDirectory`/its walk with creation disabled, all leave the mkd count
unchanged, at every fuel. -/
theorem noCreate (f : Nat) :
    (∀ st, mkds (Reconnect f st).2 = mkds st) ∧
    (∀ st, mkds (PWD f st).2 = mkds st) ∧
    (∀ st d, mkds (CWD f st d).2 = mkds st) ∧
    (∀ st d m, mkds (CWDfin f st d m).2 = mkds st) ∧
    (∀ st x, mkds (FileExists f st x).2 = mkds st) ∧
    (∀ st x, mkds (FEnlst f st x).2 = mkds st) ∧
    (∀ st x, mkds (PathExists f st x).2 = mkds st) ∧
    (∀ st d, mkds (SetDirectory f st d false).2 = mkds st) ∧
    (∀ st cs, mkds (SetDirWalk f st cs false).2 = mkds st) := by
  induction f with
  | zero =>
    exact ⟨fun st => rfl, fun st => rfl, fun st d => rfl, fun st d m => rfl,
      fun st x => rfl, fun st x => rfl, fun st x => rfl, fun st d => rfl, fun st cs => rfl⟩
  | succ f ih =>
    obtain ⟨ihR, ihP, ihC, ihF, ihFE, ihFN, ihPE, ihSD, ihSW⟩ := ih
    have hPWD : ∀ st, mkds (PWD (f + 1) st).2 = mkds st := by
      intro st
      simp only [PWD]
      refine mkds_bindP _ _ _ (mkds_doPwd st) (fun dir st1 h1 => ?_) (fun st1 h1 => ?_)
      · unfold pwdCheck
        split <;> exact h1
      · refine mkds_bindB _ _ ((ihR st1).trans h1) (fun b st2 h2 => ?_)
        cases b
        · exact h2
        · refine mkds_bindP _ _ _ ((mkds_doPwd st2).trans h2) (fun dir st3 h3 => ?_)
            (fun st3 h3 => h3)
          unfold pwdCheck
          split <;> exact h3
    have hRec : ∀ st, mkds (Reconnect (f + 1) st).2 = mkds st := by
      intro st
      simp only [Reconnect]
      split
      · rfl
      · refine mkds_bindP _ _ _ (mkds_doConn _) (fun u st1 h1 => ?_) (fun st1 h1 => h1)
        refine mkds_bindP _ _ _ ((mkds_doCwd _ _).trans h1) (fun msg st2 h2 => ?_)
          (fun st2 h2 => h2)
        split
        · exact h2
        · exact mkds_bindB _ _ ((ihSD _ _).trans h2) (fun b st3 h3 => h3)
    have hFin : ∀ st d m, mkds (CWDfin (f + 1) st d m).2 = mkds st := by
      intro st d m
      simp only [CWDfin]
      split
      · split
        · rfl
        · exact mkds_bindB _ _ ((ihP _).trans rfl) (fun r st2 h2 => h2)
      · exact mkds_bindB _ _ (ihP st) (fun r st2 h2 => h2)
    have hCWD : ∀ st d, mkds (CWD (f + 1) st d).2 = mkds st := by
      intro st d
      simp only [CWD]
      refine mkds_bindB _ _ (ihP st) (fun wd st1 h1 => ?_)
      split
      · exact h1
      · refine mkds_bindP _ _ _ ((mkds_doCwd _ _).trans h1)
          (fun msg st2 h2 => (ihF st2 _ msg).trans h2) (fun st2 h2 => ?_)
        refine mkds_bindB _ _ ((ihR st2).trans h2) (fun b st3 h3 => ?_)
        cases b
        · exact h3
        · exact mkds_bindP _ _ _ ((mkds_doCwd _ _).trans h3)
            (fun msg st4 h4 => (ihF st4 _ msg).trans h4) (fun st4 h4 => h4)
    have hFEn : ∀ st x, mkds (FEnlst (f + 1) st x).2 = mkds st := by
      intro st x
      simp only [FEnlst]
      refine mkds_bindP _ _ _ (mkds_doNlst st) (fun names st1 h1 => h1) (fun st1 h1 => ?_)
      refine mkds_bindB _ _ ((ihR st1).trans h1) (fun b st2 h2 => ?_)
      cases b
      · exact h2
      · exact (ihFE st2 x).trans h2
    have hFE : ∀ st x, mkds (FileExists (f + 1) st x).2 = mkds st := by
      intro st x
      simp only [FileExists]
      repeat' split
      all_goals
        first
        | rfl
        | exact (ihFN _ _).trans rfl
        | (refine mkds_bindB _ _ ((ihPE _ _).trans rfl) (fun b st1 h1 => ?_)
           split
           · exact mkds_bindB _ _ ((ihC st1 _).trans h1)
               (fun r st2 h2 => (ihFN st2 _).trans h2)
           · exact h1)
    have hPE : ∀ st x, mkds (PathExists (f + 1) st x).2 = mkds st := by
      intro st x
      simp only [PathExists]
      split
      · rfl
      · split
        · refine mkds_bindB _ _ ((ihC _ _).trans rfl) (fun b st1 h1 => ?_)
          split
          · split
            · exact h1
            · exact (ihFE st1 _).trans h1
          · exact h1
        · split
          · split
            · rfl
            · exact (ihFE _ _).trans rfl
          · refine mkds_bindB _ _ ((ihC _ _).trans rfl)
              (fun r st1 h1 => ?_)
            split
            · exact h1
            · exact (ihFE st1 _).trans h1
    have hSW : ∀ st cs, mkds (SetDirWalk (f + 1) st cs false).2 = mkds st := by
      intro st cs
      simp only [SetDirWalk]
      cases cs with
      | nil => rfl
      | cons c rest =>
        refine mkds_bindB _ _ (ihFE st c) (fun ex st1 h1 => ?_)
        cases ex
        · simpa using h1
        · simp only [if_true]
          refine mkds_bindB _ _ ((ihC st1 c).trans h1) (fun b st2 h2 => ?_)
          cases b
          · exact h2
          · exact (ihSW st2 rest).trans h2
    have hSD : ∀ st d, mkds (SetDirectory (f + 1) st d false).2 = mkds st := by
      intro st d
      simp only [SetDirectory]
      split
      · rfl
      · split
        · rfl
        · exact (ihSW _ _).trans rfl
    exact ⟨hRec, hPWD, hCWD, hFin, hFE, hFEn, hPE, hSD, hSW⟩

/-!
Claim C2 (uniform bounded retry contract).

Two parts of the claim fail on the code.  First, for most verbs the
post-reconnect retry is issued outside any `try` block (`MKD` line 159,
`DeleteFile` line 183, `Rename` line 210, `DeleteDir` line 246, `PWD`
line 275, `PutString` line 425, `AppendString` line 450, `GetAsString`
line 606), so a second transport failure propagates as a raised
exception, not a Boolean failure value (only `CWD` wraps the retry in
`try`).  Second, `FileExists` does not reissue the verb once: after a
successful reconnect it restarts itself recursively (line 357), so the
listing verb can be attempted arbitrarily often while reconnects keep
succeeding.
-/

/-- Claim C2, counterexample: (a) `MKD` whose verb raises, whose reconnect
succeeds and whose reissued verb raises again completes by raising an
exception, not by returning a Boolean failure value; (b) `FileExists`
with two raised listings and two successful reconnects attempts the
listing verb three times -- the verb is retried more than once. -/
theorem C2_counterexample :
    (MKD 10 ⟨true, true, "/", "/", "",
        [.raise, .connOk, .cwdR "250 OK." (some "/"), .raise], []⟩ "d").1 = .exn ∧
    (FileExists 20 ⟨true, true, "/", "/", "",
        [.raise, .connOk, .cwdR "250 OK." (some "/"),
          .raise, .connOk, .cwdR "250 OK." (some "/"), .listR ["f"]], []⟩ "f").1 =
      .ok true ∧
    ((FileExists 20 ⟨true, true, "/", "/", "",
        [.raise, .connOk, .cwdR "250 OK." (some "/"),
          .raise, .connOk, .cwdR "250 OK." (some "/"), .listR ["f"]], []⟩
        "f").2.trace.countP (fun a => a == .nlstA)) = 3 := by
  decide

/-- Claim C2 (amended), stated for `MKD` (the claim's cited verb): the mkd
verb is attempted at most twice in any run (once plus at most one
reissue -- `Reconnect` itself never attempts an mkd verb); a transport
failure followed by a failed reconnect returns `False`; after a
successful reconnect the verb is reissued exactly once and its reply is
interpreted as usual; but a second transport failure propagates as a
raised exception instead of a `False` return. -/
theorem C2_amended (f : Nat) (st st1 : St) (d m : String) :
    mkds (MKD f st d).2 ≤ mkds st + 2 ∧
    (doMsg (.mkdA d) st = (some m, st1) → MKD (f + 1) st d = (.ok (mkdCheck d m), st1)) ∧
    (doMsg (.mkdA d) st = (none, st1) →
      (∀ st2, Reconnect f st1 = (.ok false, st2) → MKD (f + 1) st d = (.ok false, st2)) ∧
      (∀ st2 st3 m2, Reconnect f st1 = (.ok true, st2) →
        doMsg (.mkdA d) st2 = (some m2, st3) →
        MKD (f + 1) st d = (.ok (mkdCheck d m2), st3)) ∧
      (∀ st2 st3, Reconnect f st1 = (.ok true, st2) →
        doMsg (.mkdA d) st2 = (none, st3) → MKD (f + 1) st d = (.exn, st3))) := by
  refine ⟨?_, fun h => ?_, fun h => ⟨fun st2 h2 => ?_, fun st2 st3 m2 h2 h3 => ?_,
    fun st2 st3 h2 h3 => ?_⟩⟩
  · cases f with
    | zero => exact Nat.le_add_right _ _
    | succ f =>
      simp only [MKD]
      rcases hp : doMsg (.mkdA d) st with ⟨o, stA⟩
      have hA : mkds stA ≤ mkds st + 1 := by
        have hx := mkds_doMsg_le (.mkdA d) st
        rw [hp] at hx
        exact hx
      cases o with
      | some m2 =>
        simp only [bindP]
        omega
      | none =>
        simp only [bindP]
        rcases hr : Reconnect f stA with ⟨r, stB⟩
        have hB : mkds stB = mkds stA := by
          have hx := (noCreate f).1 stA
          rw [hr] at hx
          exact hx
        cases r with
        | ok b =>
          cases b with
          | false => simp [bindB]; omega
          | true =>
            simp only [bindB, eq_self_iff_true, if_true]
            rcases hq : doMsg (.mkdA d) stB with ⟨o2, stC⟩
            have hC : mkds stC ≤ mkds stB + 1 := by
              have hx := mkds_doMsg_le (.mkdA d) stB
              rw [hq] at hx
              exact hx
            cases o2 <;> simp only [bindP] <;> omega
        | exn => simp only [bindB]; omega
        | halted => simp only [bindB]; omega
        | fuelOut => simp only [bindB]; omega
  · simp only [MKD]
    rw [h]
    rfl
  · simp only [MKD]
    rw [h]
    simp only [bindP]
    rw [h2]
    rfl
  · simp only [MKD]
    rw [h]
    simp only [bindP]
    rw [h2]
    simp only [bindB, eq_self_iff_true, if_true]
    rw [h3]
  · simp only [MKD]
    rw [h]
    simp only [bindP]
    rw [h2]
    simp only [bindB, eq_self_iff_true, if_true]
    rw [h3]

/-- Claim C2's witness: the concrete raise/reconnect/raise run of `MKD`,
driven through the amended theorem's branches. -/
theorem C2_witness :
    MKD 10 ⟨true, true, "/", "/", "",
        [.raise, .connOk, .cwdR "250 OK." (some "/"), .raise], []⟩ "d" =
      (.exn, ⟨true, true, "/", "/", "", [],
        [.mkdA "d", .cwdA "/", .connA, .mkdA "d"]⟩) ∧
    mkds (MKD 10 ⟨true, true, "/", "/", "",
        [.raise, .connOk, .cwdR "250 OK." (some "/"), .raise], []⟩ "d").2 ≤
      mkds (⟨true, true, "/", "/", "",
        [.raise, .connOk, .cwdR "250 OK." (some "/"), .raise], []⟩ : St) + 2 :=
  ⟨((C2_amended 9 ⟨true, true, "/", "/", "",
        [.raise, .connOk, .cwdR "250 OK." (some "/"), .raise], []⟩
      ⟨true, true, "/", "/", "", [.connOk, .cwdR "250 OK." (some "/"), .raise],
        [.mkdA "d"]⟩ "d" "").2.2 (by decide)).2.2
      ⟨true, true, "/", "/", "", [.raise], [.cwdA "/", .connA, .mkdA "d"]⟩
      ⟨true, true, "/", "/", "", [], [.mkdA "d", .cwdA "/", .connA, .mkdA "d"]⟩
      (by decide) (by decide),
    (C2_amended 10 ⟨true, true, "/", "/", "",
        [.raise, .connOk, .cwdR "250 OK." (some "/"), .raise], []⟩
      ⟨true, true, "/", "/", "", [], []⟩ "d" "").1⟩

/-!
Claim C4 (SetDirectory walk).
-/

/-- Claim C4: `SetDirectory` splits the path into ordered components
(the root marker first when absolute) and walks them: an existence check
per component; a missing component fails the call when creation is
disabled (and with creation disabled no make-directory verb is ever
attempted); with creation enabled a missing component is created, a
creation failure fails the whole call, and each component is then
entered via `CWD`, a failed entry aborting the remaining walk; created
directories are never rolled back (the failing concrete run keeps both
created directories in its trace and issues no delete/rmd verb); and
re-running `SetDirectory` on the chain it just created short-circuits to
success without any verb at all. -/
theorem C4_walk (f : Nat) (st st1 st2 st3 : St) (d comp : String) (rest : List String)
    (c : Bool) :
    (SetDirectory (f + 1) st d c =
      if d.data.isEmpty = true then (.ok true, setLM "" st)
      else if (pyStartsWith d "/" && d == st.curdirpath) = true then (.ok true, setLM "" st)
      else SetDirWalk f (setLM "" st) (pyComponents d) c) ∧
    (SetDirWalk (f + 1) st [] c = (.ok true, st)) ∧
    (FileExists f st comp = (.ok false, st1) →
      SetDirWalk (f + 1) st (comp :: rest) false = (.ok false, st1)) ∧
    (FileExists f st comp = (.ok false, st1) → MKD f st1 comp = (.ok false, st2) →
      SetDirWalk (f + 1) st (comp :: rest) true = (.ok false, st2)) ∧
    (FileExists f st comp = (.ok false, st1) → MKD f st1 comp = (.ok true, st2) →
      (CWD f st2 comp = (.ok false, st3) →
        SetDirWalk (f + 1) st (comp :: rest) true = (.ok false, st3)) ∧
      (CWD f st2 comp = (.ok true, st3) →
        SetDirWalk (f + 1) st (comp :: rest) true = SetDirWalk f st3 rest true)) ∧
    (FileExists f st comp = (.ok true, st1) →
      (CWD f st1 comp = (.ok false, st2) →
        SetDirWalk (f + 1) st (comp :: rest) c = (.ok false, st2)) ∧
      (CWD f st1 comp = (.ok true, st2) →
        SetDirWalk (f + 1) st (comp :: rest) c = SetDirWalk f st2 rest c)) ∧
    (mkds (SetDirectory f st d false).2 = mkds st ∧
      mkds (SetDirWalk f st (comp :: rest) false).2 = mkds st) ∧
    (SetDirectory 5 ⟨true, true, "/x/y", "/x/y", "", [], []⟩ "/x/y" true =
      (.ok true, ⟨true, true, "/x/y", "/x/y", "", [], []⟩)) ∧
    (pyComponents "/x/y" = ["/", "x", "y"] ∧
      (SetDirectory 20 ⟨true, true, "/", "/", "",
          [.pwdOk, .listR [], .msgR "257 x", .pwdOk, .cwdR "250 OK." (some "/x"), .pwdOk,
            .listR [], .msgR "257 y", .pwdOk, .cwdR "550 no" none, .pwdOk], []⟩
          "/x/y" true).1 = .ok false ∧
      (SetDirectory 20 ⟨true, true, "/", "/", "",
          [.pwdOk, .listR [], .msgR "257 x", .pwdOk, .cwdR "250 OK." (some "/x"), .pwdOk,
            .listR [], .msgR "257 y", .pwdOk, .cwdR "550 no" none, .pwdOk], []⟩
          "/x/y" true).2.curdirpath = "/x" ∧
      (SetDirectory 20 ⟨true, true, "/", "/", "",
          [.pwdOk, .listR [], .msgR "257 x", .pwdOk, .cwdR "250 OK." (some "/x"), .pwdOk,
            .listR [], .msgR "257 y", .pwdOk, .cwdR "550 no" none, .pwdOk], []⟩
          "/x/y" true).2.trace =
        [.pwdA, .cwdA "y", .pwdA, .mkdA "y", .nlstA, .pwdA, .cwdA "x", .pwdA, .mkdA "x",
          .nlstA, .pwdA]) := by
  refine ⟨rfl, rfl, fun h => ?_, fun h h2 => ?_, fun h h2 => ⟨fun h3 => ?_, fun h3 => ?_⟩,
    fun h => ⟨fun h2 => ?_, fun h2 => ?_⟩,
    ⟨(noCreate f).2.2.2.2.2.2.2.1 st d, (noCreate f).2.2.2.2.2.2.2.2 st (comp :: rest)⟩,
    by decide, by decide⟩
  · simp only [SetDirWalk]
    rw [h]
    rfl
  · simp only [SetDirWalk]
    rw [h]
    simp only [bindB, Bool.false_eq_true, if_false, Bool.not_true]
    rw [h2]
    rfl
  · simp only [SetDirWalk]
    rw [h]
    simp only [bindB, Bool.false_eq_true, if_false, Bool.not_true]
    rw [h2]
    simp only [bindB, eq_self_iff_true, if_true]
    rw [h3]
    rfl
  · simp only [SetDirWalk]
    rw [h]
    simp only [bindB, Bool.false_eq_true, if_false, Bool.not_true]
    rw [h2]
    simp only [bindB, eq_self_iff_true, if_true]
    rw [h3]
    rfl
  · simp only [SetDirWalk]
    rw [h]
    simp only [bindB, eq_self_iff_true, if_true]
    rw [h2]
    rfl
  · simp only [SetDirWalk]
    rw [h]
    simp only [bindB, eq_self_iff_true, if_true]
    rw [h2]
    rfl

/-- Claim C4's witness: the step behaviors at concrete states -- a
missing component with creation disabled fails; an existing component is
entered and the walk continues; creating a missing component and
entering it continues the walk. -/
theorem C4_witness :
    SetDirWalk 8 ⟨true, true, "/", "/", "", [.listR []], []⟩ ["x"] false =
      (.ok false, ⟨true, true, "/", "/", "", [], [.nlstA]⟩) ∧
    SetDirWalk 8 ⟨true, true, "/", "/", "",
        [.listR ["x"], .pwdOk, .cwdR "250 OK." (some "/x"), .pwdOk], []⟩ ["x"] false =
      SetDirWalk 7 ⟨true, true, "/x", "/x", "", [],
        [.pwdA, .cwdA "x", .pwdA, .nlstA]⟩ [] false ∧
    SetDirWalk 8 ⟨true, true, "/", "/", "",
        [.listR [], .msgR "257 x", .pwdOk, .cwdR "250 OK." (some "/x"), .pwdOk], []⟩
        ["x"] true =
      SetDirWalk 7 ⟨true, true, "/x", "/x", "", [],
        [.pwdA, .cwdA "x", .pwdA, .mkdA "x", .nlstA]⟩ [] true :=
  ⟨(C4_walk 7 ⟨true, true, "/", "/", "", [.listR []], []⟩
      ⟨true, true, "/", "/", "", [], [.nlstA]⟩
      ⟨true, true, "/", "/", "", [], []⟩ ⟨true, true, "/", "/", "", [], []⟩
      "/x" "x" [] false).2.2.1 (by decide),
    ((C4_walk 7 ⟨true, true, "/", "/", "",
        [.listR ["x"], .pwdOk, .cwdR "250 OK." (some "/x"), .pwdOk], []⟩
      ⟨true, true, "/", "/", "", [.pwdOk, .cwdR "250 OK." (some "/x"), .pwdOk], [.nlstA]⟩
      ⟨true, true, "/x", "/x", "", [], [.pwdA, .cwdA "x", .pwdA, .nlstA]⟩
      ⟨true, true, "/", "/", "", [], []⟩
      "/x" "x" [] false).2.2.2.2.2.1 (by decide)).2 (by decide),
    (((C4_walk 7 ⟨true, true, "/", "/", "",
        [.listR [], .msgR "257 x", .pwdOk, .cwdR "250 OK." (some "/x"), .pwdOk], []⟩
      ⟨true, true, "/", "/", "",
        [.msgR "257 x", .pwdOk, .cwdR "250 OK." (some "/x"), .pwdOk], [.nlstA]⟩
      ⟨true, true, "/", "/", "",
        [.pwdOk, .cwdR "250 OK." (some "/x"), .pwdOk], [.mkdA "x", .nlstA]⟩
      ⟨true, true, "/x", "/x", "", [], [.pwdA, .cwdA "x", .pwdA, .mkdA "x", .nlstA]⟩
      "/x" "x" [] true).2.2.2.2.1 (by decide) (by decide)).2 (by decide))⟩

end FTPSpec
